import Mathlib

/-!
Verification development for the temporal future-prediction engine
(`future_prediction.py`): `ConvBlock`, `SpatialGRU`, `Bottleneck` and
`FuturePrediction`.

Two shallow embeddings of the source are given:

* a *shape-level* model: module construction is embedded as `Except`-valued
  functions mirroring the Python `__init__` bodies (exceptions become
  `Except.error`), and each `forward` is embedded as its shape-transfer
  function on `[B,C,H,W]` / `[B,T,C,H,W]` shapes, again `Except`-valued so
  that backend shape errors (channel mismatches, too-small convolution
  outputs, `torch.stack` on an empty list, invalid `view`) are explicit;

* a *value-level* model of the `SpatialGRU` recurrence: tensors are
  functions from `Fin`-indices to `ℚ`, the 3x3 stride-1 padding-1
  convolutions used by the GRU are computed concretely from their (opaque,
  externally loaded) weights, and `torch.sigmoid` — a transcendental
  function — is an explicit function parameter `sg : ℚ → ℚ`.

All definitions are computable; every claim theorem mentions them.
-/

namespace BeverseLite

/-! ## String constants (selector names and error messages)

The message text stands in for the Python exception raised at the
corresponding program point; distinct program points get distinct text. -/

def strBn : String := "bn"

def strIn : String := "in"

def strNoneSel : String := "none"

def strRelu : String := "relu"

def strLrelu : String := "lrelu"

def strElu : String := "elu"

def strTanh : String := "tanh"

/-- `assert len(x.size()) == 5` failure message (source line 80). -/
def axesMsg : String := "Input tensor must be BxTxCxHxW."

/-- `assert c == self.input_size` failure message (source line 82). -/
def featMsg : String := "feature sizes must match"

/-- `torch.stack` on an empty tensor list raises (source line 97 at T=0). -/
def stackMsg : String := "stack expects a non-empty TensorList"

/-- `torch.stack` on tensors of unequal sizes raises. -/
def stackEqMsg : String := "stack expects each tensor to be equal size"

/-- `nn.Conv2d` applied to an input with the wrong channel count raises. -/
def convChMsg : String := "conv2d channel mismatch"

/-- `nn.Conv2d` raises when the computed output size would be smaller than 1. -/
def convSizeMsg : String := "conv2d output size too small"

/-- `nn.BatchNorm2d` / `nn.InstanceNorm2d` channel-count mismatch. -/
def bnMsg : String := "batchnorm channel mismatch"

/-- `torch.cat` along the channel axis needs equal non-channel dimensions. -/
def catMsg : String := "cat tensors must match in non-channel dimensions"

/-- elementwise binary op on mismatched shapes raises. -/
def binMsg : String := "elementwise op shape mismatch"

/-- `Tensor.view` with an element count that does not match raises. -/
def viewMsg : String := "view size incompatible with number of elements"

/-- `max_pool2d` raises when the output size would be smaller than 1. -/
def poolMsg : String := "max_pool2d output size too small"

/-- tuple unpacking `b, n_future, c, h, w = x.shape` on a non-5D shape. -/
def unpackMsg : String := "shape unpack expects 5 dimensions"

/-- `raise ValueError(...)` for an unknown norm selector (source line 36). -/
def normErrMsg (nrm : String) : String := "Invalid norm " ++ nrm

/-- `raise ValueError(...)` for an unknown activation selector (source line 49). -/
def actErrMsg (act : String) : String := "Invalid activation " ++ act

/-- `nn.Tanh(inplace=True)` raises a TypeError: `nn.Tanh.__init__` accepts no
`inplace` keyword argument (source line 45). -/
def tanhMsg : String := "TypeError: Tanh takes no inplace argument"

/-- the `transpose=True` branch of `ConvBlock.__init__` evaluates the name
`partial`, which is never imported in the module (source line 26). -/
def nameErrMsg : String := "NameError: missing functools import"

/-- `list.append` called with two arguments raises (source lines 209-212). -/
def appendMsg : String := "TypeError: append takes exactly one argument"

/-- `assert dilation == 1` failure (source line 147). -/
def dilMsg : String := "AssertionError: dilation must equal 1"

/-- `assert not downsample` failure inside the upsample branch (source line 149). -/
def upDownMsg : String := "downsample and upsample not possible simultaneously."

/-- `nn.Dropout2d` validates its probability at construction. -/
def dropMsg : String := "ValueError: dropout probability has to be between 0 and 1"

/-! ## Shape-level model -/

/-- Python `a or b` on an optional integer argument: `None` and `0` are both
falsy, so `out_channels = out_channels or in_channels` yields `in_channels`
for `None` *and* for `0` (source lines 24 and 143). -/
def pyOr (oc : Option Nat) (d : Nat) : Nat :=
  match oc with
  | none => d
  | some n => if n = 0 then d else n

/-- A 4-axis shape `(batch, channel, height, width)`. -/
def Shape4 : Type := Nat × Nat × Nat × Nat

instance : DecidableEq Shape4 := by
  unfold Shape4
  exact inferInstance

/-- Shape-relevant configuration of an `nn.Conv2d` (dilation is 1 at every
construction site that can actually be reached). -/
structure Conv2dS where
  in_channels : Nat
  out_channels : Nat
  kernel : Nat
  stride : Nat
  padding : Nat
deriving DecidableEq

/-- Spatial output extent of a dilation-1 convolution:
`floor((h + 2p - k) / s) + 1`, an error when the result would be < 1
(PyTorch raises at run time in that case). -/
def convOut (h k s p : Nat) : Except String Nat :=
  if h + 2 * p < k then Except.error convSizeMsg
  else Except.ok ((h + 2 * p - k) / s + 1)

/-- Shape transfer of `nn.Conv2d.forward`. -/
def conv2dShape (cfg : Conv2dS) (s : Shape4) : Except String Shape4 :=
  match s with
  | (b, c, h, w) =>
    if c ≠ cfg.in_channels then Except.error convChMsg
    else do
      let h2 ← convOut h cfg.kernel cfg.stride cfg.padding
      let w2 ← convOut w cfg.kernel cfg.stride cfg.padding
      Except.ok (b, cfg.out_channels, h2, w2)

/-- Normalisation layer stored by `ConvBlock` (source lines 29-34). -/
inductive NormS where
  | bn (nf : Nat)
  | inorm (nf : Nat)
deriving DecidableEq

/-- Activation layer stored by `ConvBlock`; `tanh` is absent because its
construction raises before a layer is ever produced (source line 45). -/
inductive ActS where
  | relu
  | lrelu
  | elu
deriving DecidableEq

/-- Shape transfer of the normalisation layers (identity, with the
channel-count check both layers perform). -/
def NormS.shape : NormS → Shape4 → Except String Shape4
  | NormS.bn nf, (b, c, h, w) =>
      if c = nf then Except.ok (b, c, h, w) else Except.error bnMsg
  | NormS.inorm nf, (b, c, h, w) =>
      if c = nf then Except.ok (b, c, h, w) else Except.error bnMsg

/-- Shape-relevant state of a constructed `ConvBlock`. -/
structure ConvBlockS where
  conv : Conv2dS
  norm : Option NormS
  activation : Option ActS
deriving DecidableEq

/-- `ConvBlock.__init__` (source lines 12-49).  Evaluation order follows the
source: the conv is built first (the `transpose=True` arm evaluates the
unimported name `partial` and dies with a `NameError`), then the norm
selector is dispatched, then the activation selector.  `bias` only affects
learned parameters, not shapes, and is accepted unused. -/
def ConvBlock.init (ic : Nat) (oc : Option Nat) (k stride : Nat)
    (nrm act : String) (bias transpose : Bool) : Except String ConvBlockS :=
  if transpose then Except.error nameErrMsg
  else do
    let n ← (if nrm = strBn then Except.ok (some (NormS.bn (pyOr oc ic)))
             else if nrm = strIn then Except.ok (some (NormS.inorm (pyOr oc ic)))
             else if nrm = strNoneSel then Except.ok none
             else Except.error (normErrMsg nrm) : Except String (Option NormS))
    let a ← (if act = strRelu then Except.ok (some ActS.relu)
             else if act = strLrelu then Except.ok (some ActS.lrelu)
             else if act = strElu then Except.ok (some ActS.elu)
             else if act = strTanh then Except.error tanhMsg
             else if act = strNoneSel then Except.ok none
             else Except.error (actErrMsg act) : Except String (Option ActS))
    let _ := bias
    Except.ok ⟨⟨ic, pyOr oc ic, k, stride, (k - 1) / 2⟩, n, a⟩

/-- Shape transfer of `ConvBlock.forward` (source lines 51-58): conv, then
optional norm, then optional activation (shape-preserving). -/
def ConvBlock.forwardShape (cb : ConvBlockS) (s : Shape4) : Except String Shape4 := do
  let s1 ← conv2dShape cb.conv s
  match cb.norm with
  | none => Except.ok s1
  | some n => n.shape s1

/-- Shape-relevant state of a constructed `SpatialGRU` (source lines 64-75). -/
structure SpatialGRUS where
  input_size : Nat
  hidden_size : Nat
  conv_update : Conv2dS
  conv_reset : Conv2dS
  conv_state_tilde : ConvBlockS
deriving DecidableEq

/-- `SpatialGRU.__init__` (source lines 64-75): two 3x3 padding-1 gate convs
from `input_size + hidden_size` to `hidden_size` channels, plus a
`ConvBlock` for the candidate state.  `gru_bias_init` does not affect
shapes and is carried only by the value-level model. -/
def SpatialGRU.init (input_size hidden_size : Nat) (nrm act : String) :
    Except String SpatialGRUS := do
  let tilde ← ConvBlock.init (input_size + hidden_size) (some hidden_size) 3 1
      nrm act false false
  Except.ok ⟨input_size, hidden_size,
    ⟨input_size + hidden_size, hidden_size, 3, 1, 1⟩,
    ⟨input_size + hidden_size, hidden_size, 3, 1, 1⟩,
    tilde⟩

/-- Shape transfer of `torch.cat(-, dim=1)` on two 4-D tensors. -/
def catShape (x y : Shape4) : Except String Shape4 :=
  match x, y with
  | (b1, c1, h1, w1), (b2, c2, h2, w2) =>
    if b1 = b2 ∧ h1 = h2 ∧ w1 = w2 then Except.ok (b1, c1 + c2, h1, w1)
    else Except.error catMsg

/-- Shape transfer of a same-shape elementwise binary operation. -/
def binShape (x y : Shape4) : Except String Shape4 :=
  if x = y then Except.ok x else Except.error binMsg

/-- Shape transfer of `SpatialGRU.gru_cell` (source lines 99-112): cat, gate
convs (sigmoid is shape-preserving), reset blend, candidate `ConvBlock`,
final blend. -/
def SpatialGRU.cellShape (m : SpatialGRUS) (xs ss : Shape4) : Except String Shape4 := do
  let xh ← catShape xs ss
  let u ← conv2dShape m.conv_update xh
  let r ← conv2dShape m.conv_reset xh
  let rs ← binShape r ss
  let c2 ← catShape xs rs
  let st ← ConvBlock.forwardShape m.conv_state_tilde c2
  let a ← binShape u ss
  let b2 ← binShape u st
  binShape a b2

/-- The per-timestep recurrence of `SpatialGRU.forward` (source lines 87-94)
at shape level: every step consumes the slice shape and the carried state
shape and appends the new state shape. -/
def sgruLoopShape (m : SpatialGRUS) (xs : Shape4) : Nat → Shape4 → Except String (List Shape4)
  | 0, _ => Except.ok []
  | n + 1, s => do
      let s2 ← SpatialGRU.cellShape m xs s
      let rest ← sgruLoopShape m xs n s2
      Except.ok (s2 :: rest)

/-- Shape transfer of `torch.stack(-, dim=1)`: all stacked shapes must be
equal and the list must be non-empty, else PyTorch raises. -/
def stackShape : List Shape4 → Except String (List Nat)
  | [] => Except.error stackMsg
  | s :: rest =>
      if rest.all (fun q => q = s) then
        Except.ok [s.1, rest.length + 1, s.2.1, s.2.2.1, s.2.2.2]
      else Except.error stackEqMsg

/-- The two `assert` preconditions at the start of `SpatialGRU.forward`
(source lines 80-82): exactly 5 axes, channel axis equal to `input_size`. -/
def sgruSizeCheck (input_size : Nat) (xshape : List Nat) :
    Except String (Nat × Nat × Nat × Nat × Nat) :=
  match xshape with
  | [b, t, c, h, w] =>
      if c ≠ input_size then Except.error featMsg else Except.ok (b, t, c, h, w)
  | _ => Except.error axesMsg

/-- Shape transfer of `SpatialGRU.forward` (source lines 77-97) with
`flow=None` — the only mode exercised anywhere in the repository, and the
mode every claim is about. -/
def SpatialGRU.forwardShape (m : SpatialGRUS) (xshape : List Nat)
    (state : Option Shape4) : Except String (List Nat) := do
  let (b, t, c, h, w) ← sgruSizeCheck m.input_size xshape
  let s0 := match state with
    | none => (b, m.hidden_size, h, w)
    | some s => s
  let outs ← sgruLoopShape m (b, c, h, w) t s0
  stackShape outs

/-! ### Bottleneck -/

/-- Shape-relevant layers occurring inside `Bottleneck` (source lines
114-198): convolutions, transposed convolution (stride 2, with output
padding), batch norm, ReLU, 2D dropout, bilinear `Interpolate` with scale
factor 2, and 2x2 stride-2 max pooling. -/
inductive LayerS where
  | conv2d (cfg : Conv2dS)
  | convT2d (cfg : Conv2dS) (output_padding : Nat)
  | batchnorm (nf : Nat)
  | relu
  | dropout2d
  | interpolate2
  | maxpool2
deriving DecidableEq

/-- Shape transfer of one `LayerS`. -/
def LayerS.shape : LayerS → Shape4 → Except String Shape4
  | LayerS.conv2d cfg, s => conv2dShape cfg s
  | LayerS.convT2d cfg op, (b, c, h, w) =>
      if c ≠ cfg.in_channels then Except.error convChMsg
      else Except.ok (b, cfg.out_channels,
        (h - 1) * cfg.stride + cfg.kernel + op - 2 * cfg.padding,
        (w - 1) * cfg.stride + cfg.kernel + op - 2 * cfg.padding)
  | LayerS.batchnorm nf, (b, c, h, w) =>
      if c = nf then Except.ok (b, c, h, w) else Except.error bnMsg
  | LayerS.relu, s => Except.ok s
  | LayerS.dropout2d, s => Except.ok s
  | LayerS.interpolate2, (b, c, h, w) => Except.ok (b, c, 2 * h, 2 * w)
  | LayerS.maxpool2, (b, c, h, w) =>
      if h < 2 ∨ w < 2 then Except.error poolMsg
      else Except.ok (b, c, (h - 2) / 2 + 1, (w - 2) / 2 + 1)

/-- Shape transfer of an `nn.Sequential` of layers. -/
def foldLayers : List LayerS → Shape4 → Except String Shape4
  | [], s => Except.ok s
  | l :: rest, s => do
      let s2 ← l.shape s
      foldLayers rest s2

/-- The `bottleneck_conv` selected by `Bottleneck.__init__` (source lines
148-181): transposed stride-2 conv for upsample, stride-2 conv for
downsample, stride-1 conv otherwise. -/
def bottleneckConv (bc k pad : Nat) (up down : Bool) : LayerS :=
  if up then LayerS.convT2d ⟨bc, bc, k, 2, pad⟩ pad
  else if down then LayerS.conv2d ⟨bc, bc, k, 2, pad⟩
  else LayerS.conv2d ⟨bc, bc, k, 1, pad⟩

/-- The residual `self.layers` sequence of `Bottleneck.__init__` (source
lines 183-198). -/
def bottleneckLayers (ic ocEff bc k pad : Nat) (up down : Bool) : List LayerS :=
  [LayerS.conv2d ⟨ic, bc, 1, 1, 0⟩, LayerS.batchnorm bc, LayerS.relu,
   bottleneckConv bc k pad up down, LayerS.batchnorm bc, LayerS.relu,
   LayerS.conv2d ⟨bc, ocEff, 1, 1, 0⟩, LayerS.batchnorm ocEff, LayerS.relu,
   LayerS.dropout2d]

/-- Shape-relevant state of a constructed `Bottleneck`. -/
structure BottleneckS where
  downsample : Bool
  layers : List LayerS
  projection : Option (List LayerS)
deriving DecidableEq

/-- `Bottleneck.__init__` (source lines 129-213), exception-faithful:

* `assert dilation == 1` (line 147);
* inside the upsample arm, `assert not downsample` (line 149);
* `nn.Dropout2d(p=dropout)` validates `0 <= p <= 1` while `self.layers` is
  built (line 197);
* the projection arm (lines 203-213) calls `projection.append(conv, bn)` —
  `list.append` takes exactly one argument, so every configuration that
  needs a projection shortcut raises a `TypeError`; only the identity
  shortcut arm (line 201) completes.

Groups only affect learned parameters here, not shapes, and PyTorch-internal
divisibility validation of `groups` is not modelled. -/
def Bottleneck.init (ic : Nat) (oc : Option Nat) (k dil : Nat)
    (up down : Bool) (dropout : ℚ) : Except String BottleneckS :=
  if dil ≠ 1 then Except.error dilMsg
  else if up && down then Except.error upDownMsg
  else if dropout < 0 ∨ 1 < dropout then Except.error dropMsg
  else if pyOr oc ic = ic ∧ up = false ∧ down = false then
    Except.ok ⟨down,
      bottleneckLayers ic (pyOr oc ic) (ic / 2) k (((k - 1) * dil + 1) / 2) up down,
      none⟩
  else Except.error appendMsg

/-- Zero-padding of the last two axes to even extents, as done before the
shortcut pooling (source line 221): `F.pad(x, (0, w % 2, 0, h % 2))`. -/
def padOdd (s : Shape4) : Shape4 :=
  match s with
  | (b, c, h, w) => (b, c, h + h % 2, w + w % 2)

/-- Shape transfer of `Bottleneck.forward` (source lines 216-223): residual
layers; when a projection exists, the downsample case pads odd spatial
extents before the projection; the residual and shortcut results are summed
elementwise (equal shapes required). -/
def Bottleneck.forwardShape (m : BottleneckS) (s : Shape4) : Except String Shape4 := do
  let r ← foldLayers m.layers s
  match m.projection with
  | none => binShape r s
  | some proj => do
      let s2 := if m.downsample then padOdd s else s
      let p ← foldLayers proj s2
      binShape r p

/-- Modelled from the spec: the *intended* downsample projection shortcut of
`Bottleneck` — 2x2 max pooling, then a 1x1 channel projection, then batch
norm — as the spec's narrative (section 4.2) and its design note about the
latent `list.append` construction defect (section 9) prescribe, and as the
layers named at source lines 208-211 would compose had the two-argument
`append` slip not aborted construction. -/
def projFixedDown (ic ocEff : Nat) : List LayerS :=
  [LayerS.maxpool2, LayerS.conv2d ⟨ic, ocEff, 1, 1, 0⟩, LayerS.batchnorm ocEff]

/-! ### FuturePrediction -/

/-- Shape-relevant state of a constructed `FuturePrediction` (source lines
226-243). -/
structure FuturePredictionS where
  n_gru_blocks : Nat
  spatial_grus : List SpatialGRUS
  res_blocks : List (List BottleneckS)
deriving DecidableEq

/-- The GRU list built by the loop of `FuturePrediction.__init__` (source
lines 236-238), from running index `i`: block `i` gets input width
`latent_dim` if `i = 0` and `in_channels` otherwise, hidden width
`in_channels`, and default norm and activation selectors. -/
def buildGrusFrom (ic ld : Nat) : Nat → Nat → Except String (List SpatialGRUS)
  | _, 0 => Except.ok []
  | i, n + 1 => do
      let g ← SpatialGRU.init (if i = 0 then ld else ic) ic strBn strRelu
      let rest ← buildGrusFrom ic ld (i + 1) n
      Except.ok (g :: rest)

/-- One residual stack of `n_res_layers` channel-preserving `Bottleneck`
blocks (source lines 239-240). -/
def buildResStack (ic : Nat) : Nat → Except String (List BottleneckS)
  | 0 => Except.ok []
  | n + 1 => do
      let b ← Bottleneck.init ic none 3 1 false false 0
      let rest ← buildResStack ic n
      Except.ok (b :: rest)

/-- The list of residual stacks, one per GRU block (source lines 236-240). -/
def buildResBlocks (ic nr : Nat) : Nat → Except String (List (List BottleneckS))
  | 0 => Except.ok []
  | n + 1 => do
      let r ← buildResStack ic nr
      let rest ← buildResBlocks ic nr n
      Except.ok (r :: rest)

/-- `FuturePrediction.__init__` (source lines 226-243).  The source appends
to the GRU list and the residual list in the same loop; building the two
lists separately yields the same lists. -/
def FuturePrediction.init (ic ld ng nr : Nat) : Except String FuturePredictionS := do
  let gs ← buildGrusFrom ic ld 0 ng
  let rbs ← buildResBlocks ic nr ng
  Except.ok ⟨ng, gs, rbs⟩

/-- Shape transfer of one residual stack. -/
def foldRes : List BottleneckS → Shape4 → Except String Shape4
  | [], s => Except.ok s
  | b :: rest, s => do
      let s2 ← Bottleneck.forwardShape b s
      foldRes rest s2

/-- `x.view(b * n_future, c, h, w)` and `x.view(b, n_future, c, h, w)`
(source lines 251-252): the element count must match the target shape,
which reuses `c, h, w` read *before* the residual stack ran. -/
def viewAs5 (y : Shape4) (b t c h w : Nat) : Except String (List Nat) :=
  match y with
  | (b2, c2, h2, w2) =>
    if b2 * (c2 * (h2 * w2)) = b * (t * (c * (h * w))) then Except.ok [b, t, c, h, w]
    else Except.error viewMsg

/-- The stage loop of `FuturePrediction.forward` (source lines 247-252):
each stage runs its `SpatialGRU` on the current sequence *seeded with the
one externally supplied `hidden_state`*, flattens batch and time, runs the
stage's residual stack, and reshapes back. -/
def fpStages : List (SpatialGRUS × List BottleneckS) → List Nat → Shape4 →
    Except String (List Nat)
  | [], x, _ => Except.ok x
  | (g, rs) :: rest, x, hs => do
      let x2 ← SpatialGRU.forwardShape g x (some hs)
      match x2 with
      | [b, t, c, h, w] => do
          let y ← foldRes rs (b * t, c, h, w)
          let yv ← viewAs5 y b t c h w
          fpStages rest yv hs
      | _ => Except.error unpackMsg

/-- Shape transfer of `FuturePrediction.forward` (source lines 245-253).
The source indexes `self.spatial_grus[i]` and `self.res_blocks[i]` by one
running index; zipping the two equal-length lists is the same traversal. -/
def FuturePrediction.forwardShape (m : FuturePredictionS) (x : List Nat)
    (hs : Shape4) : Except String (List Nat) :=
  fpStages (m.spatial_grus.zip m.res_blocks) x hs

/-! ## Value-level model of the SpatialGRU recurrence

Tensors are functions from `Fin`-indices to `ℚ`.  The floating-point real
arithmetic of the backend is embedded as exact rational arithmetic;
`torch.sigmoid`, being transcendental, is an explicit function parameter
`sg : ℚ → ℚ` wherever the code applies `torch.sigmoid`.  The weights of
every convolution are opaque externally loaded parameters and appear as
structure fields. -/

/-- A 4-axis tensor `[B, C, H, W]` of rationals. -/
def T4 (B C H W : Nat) : Type := Fin B → Fin C → Fin H → Fin W → ℚ

/-- The all-zeros tensor (`torch.zeros`, source line 86). -/
def zeroT {B C H W : Nat} : T4 B C H W := fun _ _ _ _ => 0

/-- Read a spatial position of a tensor with zero padding outside bounds. -/
def padGet {B C H W : Nat} (x : T4 B C H W) (bi : Fin B) (ci : Fin C)
    (i j : Int) : ℚ :=
  if hij : 0 ≤ i ∧ i < (H : Int) ∧ 0 ≤ j ∧ j < (W : Int) then
    x bi ci ⟨i.toNat, by omega⟩ ⟨j.toNat, by omega⟩
  else 0

/-- A 3x3, stride-1, padding-1 2D convolution — the only convolution shape
occurring inside `SpatialGRU` (source lines 70-75). -/
def conv3x3 {B Ci Co H W : Nat} (wgt : Fin Co → Fin Ci → Fin 3 → Fin 3 → ℚ)
    (bias : Fin Co → ℚ) (x : T4 B Ci H W) : T4 B Co H W :=
  fun bi o i j =>
    bias o + Finset.univ.sum (fun c : Fin Ci =>
      Finset.univ.sum (fun ki : Fin 3 =>
        Finset.univ.sum (fun kj : Fin 3 =>
          wgt o c ki kj * padGet x bi c ((i : Int) + (ki : Int) - 1)
            ((j : Int) + (kj : Int) - 1))))

/-- Pointwise map over a tensor. -/
def mapT {B C H W : Nat} (f : ℚ → ℚ) (x : T4 B C H W) : T4 B C H W :=
  fun bi ci i j => f (x bi ci i j)

/-- `torch.cat(-, dim=1)`: concatenation along the channel axis. -/
def catC {B C1 C2 H W : Nat} (x : T4 B C1 H W) (y : T4 B C2 H W) :
    T4 B (C1 + C2) H W :=
  fun bi ci i j =>
    if hc : (ci : Nat) < C1 then x bi ⟨ci, hc⟩ i j
    else y bi ⟨(ci : Nat) - C1, by have h2 := ci.isLt; omega⟩ i j

/-- Apply an optional layer, as `forward` does with truthiness tests on
`self.norm` / `self.activation` (source lines 54-57). -/
def applyOpt {α : Type} (f : Option (α → α)) (x : α) : α :=
  match f with
  | none => x
  | some g => g x

/-- Value-level state of the `ConvBlock` used for the candidate state inside
`SpatialGRU`: a 3x3 stride-1 padding-1 convolution (concrete weights),
followed by the optional normalisation and optional activation.  The
normalisation layers (batch/instance norm, with their opaque running
statistics and a square root) and non-ReLU activations are not pointwise
rational functions, so both stages are opaque tensor-to-tensor fields. -/
structure ConvBlockV (B Ci Co H W : Nat) where
  weight : Fin Co → Fin Ci → Fin 3 → Fin 3 → ℚ
  bias : Fin Co → ℚ
  normF : Option (T4 B Co H W → T4 B Co H W)
  actF : Option (T4 B Co H W → T4 B Co H W)

/-- Value-level `ConvBlock.forward` (source lines 51-58). -/
def ConvBlockV.forward {B Ci Co H W : Nat} (cb : ConvBlockV B Ci Co H W)
    (x : T4 B Ci H W) : T4 B Co H W :=
  applyOpt cb.actF (applyOpt cb.normF (conv3x3 cb.weight cb.bias x))

/-- Value-level state of a `SpatialGRU` (source lines 64-75): gate
convolution weights and biases, the candidate-state `ConvBlock`, and the
additive gate bias constant. -/
structure SpatialGRUV (B Ci Ch H W : Nat) where
  conv_update_w : Fin Ch → Fin (Ci + Ch) → Fin 3 → Fin 3 → ℚ
  conv_update_b : Fin Ch → ℚ
  conv_reset_w : Fin Ch → Fin (Ci + Ch) → Fin 3 → Fin 3 → ℚ
  conv_reset_b : Fin Ch → ℚ
  conv_state_tilde : ConvBlockV B (Ci + Ch) Ch H W
  gru_bias_init : ℚ

/-- Value-level `SpatialGRU.gru_cell` (source lines 99-112), with
`torch.sigmoid` as the parameter `sg`. -/
def gruCell {B Ci Ch H W : Nat} (sg : ℚ → ℚ) (m : SpatialGRUV B Ci Ch H W)
    (x : T4 B Ci H W) (state : T4 B Ch H W) : T4 B Ch H W :=
  let x_and_state := catC x state
  let update_gate := mapT (fun v => sg (v + m.gru_bias_init))
    (conv3x3 m.conv_update_w m.conv_update_b x_and_state)
  let reset_gate := mapT (fun v => sg (v + m.gru_bias_init))
    (conv3x3 m.conv_reset_w m.conv_reset_b x_and_state)
  let state_tilde := m.conv_state_tilde.forward
    (catC x (fun bi ci i j => (1 - reset_gate bi ci i j) * state bi ci i j))
  fun bi ci i j =>
    (1 - update_gate bi ci i j) * state bi ci i j +
      update_gate bi ci i j * state_tilde bi ci i j

/-- The update gate computed by `gru_cell` (source lines 102 and 105):
`sigmoid(conv_update(cat(x, state)) + gru_bias_init)`, pointwise. -/
def updateGateV {B Ci Ch H W : Nat} (sg : ℚ → ℚ) (m : SpatialGRUV B Ci Ch H W)
    (x : T4 B Ci H W) (state : T4 B Ch H W) : T4 B Ch H W :=
  mapT (fun v => sg (v + m.gru_bias_init))
    (conv3x3 m.conv_update_w m.conv_update_b (catC x state))

/-- The reset gate computed by `gru_cell` (source lines 103 and 106). -/
def resetGateV {B Ci Ch H W : Nat} (sg : ℚ → ℚ) (m : SpatialGRUV B Ci Ch H W)
    (x : T4 B Ci H W) (state : T4 B Ch H W) : T4 B Ch H W :=
  mapT (fun v => sg (v + m.gru_bias_init))
    (conv3x3 m.conv_reset_w m.conv_reset_b (catC x state))

/-- The recurrent loop of `SpatialGRU.forward` (source lines 87-94), with
the time axis of the 5-D input embedded as `Nat`-indexed slices `x`:
starting at time `t` with carried state `s`, run the given number of
remaining steps, appending each new state. -/
def sgruFrom {B Ci Ch H W : Nat} (sg : ℚ → ℚ) (m : SpatialGRUV B Ci Ch H W)
    (x : Nat → T4 B Ci H W) : Nat → Nat → T4 B Ch H W → List (T4 B Ch H W)
  | _, 0, _ => []
  | t, n + 1, s =>
      let s2 := gruCell sg m (x t) s
      s2 :: sgruFrom sg m x (t + 1) n s2

/-- Value-level `SpatialGRU.forward` (source lines 77-97) with `flow=None`:
the carried state starts as the all-zeros tensor when no initial state is
supplied (source line 86), and the outputs of the `timesteps` steps are
collected in order. -/
def sgruForwardV {B Ci Ch H W : Nat} (sg : ℚ → ℚ) (m : SpatialGRUV B Ci Ch H W)
    (timesteps : Nat) (x : Nat → T4 B Ci H W) (state : Option (T4 B Ch H W)) :
    List (T4 B Ch H W) :=
  sgruFrom sg m x 0 timesteps (match state with
    | none => zeroT
    | some s => s)

/-! ## Concrete instances used by witnesses and counterexamples -/

/-- The result of `SpatialGRU(1, 1)` with the default `norm` and
`activation` selectors, written out. -/
def mW : SpatialGRUS :=
  ⟨1, 1, ⟨2, 1, 3, 1, 1⟩, ⟨2, 1, 3, 1, 1⟩,
    ⟨⟨2, 1, 3, 1, 1⟩, some (NormS.bn 1), some ActS.relu⟩⟩

/-- The result of `SpatialGRU(3, 2)`, the block-0 GRU of
`FuturePrediction(in_channels=2, latent_dim=3, n_gru_blocks=1)`. -/
def gruW0 : SpatialGRUS :=
  ⟨3, 2, ⟨5, 2, 3, 1, 1⟩, ⟨5, 2, 3, 1, 1⟩,
    ⟨⟨5, 2, 3, 1, 1⟩, some (NormS.bn 2), some ActS.relu⟩⟩

/-- The result of `FuturePrediction(2, 3, n_gru_blocks=1, n_res_layers=0)`. -/
def fpW : FuturePredictionS := ⟨1, [gruW0], [[]]⟩

/-- A sigmoid stand-in that is constantly zero: the exact value the backend
sigmoid underflows to at very negative inputs (for example with a very
negative `gru_bias_init`). -/
def sigZero : ℚ → ℚ := fun _ => 0

/-- A tiny value-level `SpatialGRU` (all weights and biases zero). -/
def cellW : SpatialGRUV 1 1 1 1 1 :=
  ⟨fun _ _ _ _ => 0, fun _ => 0, fun _ _ _ _ => 0, fun _ => 0,
    ⟨fun _ _ _ _ => 0, fun _ => 0, none, none⟩, 0⟩

/-- A tiny input slice. -/
def xW : T4 1 1 1 1 := fun _ _ _ _ => 2

/-- A tiny carried state. -/
def sW : T4 1 1 1 1 := fun _ _ _ _ => 3

/-- Unknown selector strings used to exercise the configuration-error
paths. -/
def strFoo : String := "foo"

def strQux : String := "qux"

/-! ## Helper lemmas -/

theorem conv2dShape_3x3 (ci co b h w : Nat) (hh : 1 ≤ h) (hw : 1 ≤ w) :
    conv2dShape ⟨ci, co, 3, 1, 1⟩ (b, ci, h, w) = Except.ok (b, co, h, w) := by
  simp only [conv2dShape, convOut]
  rw [if_neg (by simp), if_neg (by omega), if_neg (by omega)]
  simp only [Bind.bind, Except.bind]
  rw [show (h + 2 * 1 - 3) / 1 + 1 = h by omega,
    show (w + 2 * 1 - 3) / 1 + 1 = w by omega]

theorem pyOr_some_pos (n d : Nat) (hn : 1 ≤ n) : pyOr (some n) d = n := by
  simp only [pyOr]
  rw [if_neg (by omega)]

theorem ConvBlock.init_ok_forwardShape (ic hsz b h w : Nat) (nrm act : String)
    (bias : Bool) (cb : ConvBlockS)
    (hcb : ConvBlock.init ic (some hsz) 3 1 nrm act bias false = Except.ok cb)
    (hhs : 1 ≤ hsz) (hh : 1 ≤ h) (hw : 1 ≤ w) :
    ConvBlock.forwardShape cb (b, ic, h, w) = Except.ok (b, hsz, h, w) := by
  rw [ConvBlock.init] at hcb
  rw [if_neg (by simp)] at hcb
  rw [pyOr_some_pos hsz ic hhs] at hcb
  simp only [Bind.bind, Except.bind] at hcb
  split at hcb
  · simp at hcb
  · rename_i nres v hv
    split at hcb
    · simp at hcb
    · rename_i ares a ha
      rw [Except.ok.injEq] at hcb
      subst hcb
      have hv3 : v = some (NormS.bn hsz) ∨ v = some (NormS.inorm hsz) ∨ v = none := by
        split_ifs at hv <;> simp_all
      rw [ConvBlock.forwardShape]
      simp only [Bind.bind, Except.bind, conv2dShape_3x3 ic hsz b h w hh hw]
      rcases hv3 with rfl | rfl | rfl <;> simp [NormS.shape]

theorem cellShape_eval (m : SpatialGRUS) (isz hsz b h w : Nat)
    (hu : m.conv_update = ⟨isz + hsz, hsz, 3, 1, 1⟩)
    (hr : m.conv_reset = ⟨isz + hsz, hsz, 3, 1, 1⟩)
    (htl : ConvBlock.forwardShape m.conv_state_tilde (b, isz + hsz, h, w) =
      Except.ok (b, hsz, h, w))
    (hh : 1 ≤ h) (hw : 1 ≤ w) :
    SpatialGRU.cellShape m (b, isz, h, w) (b, hsz, h, w) =
      Except.ok (b, hsz, h, w) := by
  rw [SpatialGRU.cellShape, hu, hr]
  simp only [Bind.bind, Except.bind]
  simp [catShape, conv2dShape_3x3 (isz + hsz) hsz b h w hh hw, binShape, htl]

theorem sgruLoopShape_const (m : SpatialGRUS) (xs s : Shape4)
    (hcell : SpatialGRU.cellShape m xs s = Except.ok s) :
    ∀ n : Nat, sgruLoopShape m xs n s = Except.ok (List.replicate n s) := by
  intro n
  induction n with
  | zero => rfl
  | succ k ih =>
      rw [sgruLoopShape]
      simp only [Bind.bind, Except.bind, hcell, ih, List.replicate_succ]

theorem stackShape_replicate (n : Nat) (s : Shape4) :
    stackShape (List.replicate (n + 1) s) =
      Except.ok [s.1, n + 1, s.2.1, s.2.2.1, s.2.2.2] := by
  rw [List.replicate_succ, stackShape]
  rw [if_pos]
  · simp
  · simp [List.all_eq_true, List.mem_replicate]

theorem sgruFrom_length {B Ci Ch H W : Nat} (sg : ℚ → ℚ)
    (m : SpatialGRUV B Ci Ch H W) (x : Nat → T4 B Ci H W) :
    ∀ (n t : Nat) (s : T4 B Ch H W), (sgruFrom sg m x t n s).length = n := by
  intro n
  induction n with
  | zero => intro t s; rfl
  | succ k ih =>
      intro t s
      rw [sgruFrom]
      simp [ih]

theorem sgruFrom_get_zero {B Ci Ch H W : Nat} (sg : ℚ → ℚ)
    (m : SpatialGRUV B Ci Ch H W) (x : Nat → T4 B Ci H W) (n t : Nat)
    (s : T4 B Ch H W) (hn : 0 < n) :
    (sgruFrom sg m x t n s)[0]? = some (gruCell sg m (x t) s) := by
  cases n with
  | zero => omega
  | succ k => rw [sgruFrom]; simp

theorem sgruFrom_step {B Ci Ch H W : Nat} (sg : ℚ → ℚ)
    (m : SpatialGRUV B Ci Ch H W) (x : Nat → T4 B Ci H W) :
    ∀ (n t k : Nat) (s v v2 : T4 B Ch H W),
      (sgruFrom sg m x t n s)[k]? = some v →
      (sgruFrom sg m x t n s)[k + 1]? = some v2 →
      v2 = gruCell sg m (x (t + k + 1)) v := by
  intro n
  induction n with
  | zero =>
      intro t k s v v2 h1 _
      rw [sgruFrom] at h1
      simp at h1
  | succ nn ih =>
      intro t k s v v2 h1 h2
      rw [sgruFrom] at h1 h2
      cases k with
      | zero =>
          simp only [List.getElem?_cons_zero, Option.some.injEq] at h1
          simp only [List.getElem?_cons_succ] at h2
          have hn : 0 < nn := by
            by_contra hc
            have : nn = 0 := by omega
            subst this
            rw [sgruFrom] at h2
            simp at h2
          rw [sgruFrom_get_zero sg m x nn (t + 1) _ hn] at h2
          simp only [Option.some.injEq] at h2
          rw [← h2, ← h1]
      | succ kk =>
          simp only [List.getElem?_cons_succ] at h1 h2
          have := ih (t + 1) kk _ v v2 h1 h2
          rw [this, show t + 1 + kk + 1 = t + (kk + 1) + 1 by omega]

theorem SpatialGRU.init_bn_relu (isz hsz : Nat) :
    SpatialGRU.init isz hsz strBn strRelu =
      Except.ok ⟨isz, hsz, ⟨isz + hsz, hsz, 3, 1, 1⟩, ⟨isz + hsz, hsz, 3, 1, 1⟩,
        ⟨⟨isz + hsz, pyOr (some hsz) (isz + hsz), 3, 1, 1⟩,
          some (NormS.bn (pyOr (some hsz) (isz + hsz))), some ActS.relu⟩⟩ := by
  rw [SpatialGRU.init, ConvBlock.init]
  simp [Bind.bind, Except.bind]

theorem buildGrusFrom_get (ic ld : Nat) :
    ∀ (n i k : Nat) (l : List SpatialGRUS) (g : SpatialGRUS),
      buildGrusFrom ic ld i n = Except.ok l → l[k]? = some g →
      g.input_size = if i + k = 0 then ld else ic := by
  intro n
  induction n with
  | zero =>
      intro i k l g hb hget
      rw [buildGrusFrom] at hb
      simp only [Except.ok.injEq] at hb
      subst hb
      simp at hget
  | succ nn ih =>
      intro i k l g hb hget
      rw [buildGrusFrom] at hb
      rw [SpatialGRU.init_bn_relu] at hb
      simp only [Bind.bind, Except.bind] at hb
      cases hrec : buildGrusFrom ic ld (i + 1) nn with
      | error e => rw [hrec] at hb; simp at hb
      | ok rest =>
          rw [hrec] at hb
          simp only [Except.ok.injEq] at hb
          subst hb
          cases k with
          | zero =>
              simp only [List.getElem?_cons_zero, Option.some.injEq] at hget
              subst hget
              simp
          | succ kk =>
              simp only [List.getElem?_cons_succ] at hget
              have := ih (i + 1) kk rest g hrec hget
              rw [this]
              have h1 : ¬(i + 1 + kk = 0) := by omega
              have h2 : ¬(i + (kk + 1) = 0) := by omega
              rw [if_neg h1, if_neg h2]

/-! ## Claim theorems -/

/-- C1: `FuturePrediction` with `n_gru_blocks=3, n_res_layers=3,
in_channels=64, latent_dim=64` constructs successfully and, given an input
sequence of shape `[4,5,64,200,200]` and a current-state map of shape
`[4,64,200,200]`, runs to completion (no error) with output shape
`[4,5,64,200,200]`. -/
theorem c1_future_prediction_end_to_end_shape :
    (FuturePrediction.init 64 64 3 3).bind
      (fun m => FuturePrediction.forwardShape m [4, 5, 64, 200, 200] (4, 64, 200, 200)) =
      Except.ok [4, 5, 64, 200, 200] := by rfl

/-- C2: each `SpatialGRU` step computes
`update_gate = sigmoid(conv_update(cat(x_t, h)) + bias_init)`,
`reset_gate = sigmoid(conv_reset(cat(x_t, h)) + bias_init)`,
`state_tilde = ConvBlock(cat(x_t, (1 - reset_gate) * h))`, and the new
hidden state `(1 - update_gate) * h + update_gate * state_tilde`,
pointwise. -/
theorem c2_gru_cell_gate_equations {B Ci Ch H W : Nat} (sg : ℚ → ℚ)
    (m : SpatialGRUV B Ci Ch H W) (x : T4 B Ci H W) (state : T4 B Ch H W) :
    updateGateV sg m x state = (fun bi ci i j =>
      sg (conv3x3 m.conv_update_w m.conv_update_b (catC x state) bi ci i j +
        m.gru_bias_init))
    ∧ resetGateV sg m x state = (fun bi ci i j =>
      sg (conv3x3 m.conv_reset_w m.conv_reset_b (catC x state) bi ci i j +
        m.gru_bias_init))
    ∧ gruCell sg m x state = (fun bi ci i j =>
      (1 - updateGateV sg m x state bi ci i j) * state bi ci i j +
        updateGateV sg m x state bi ci i j *
          m.conv_state_tilde.forward
            (catC x (fun b2 c2 i2 j2 =>
              (1 - resetGateV sg m x state b2 c2 i2 j2) * state b2 c2 i2 j2))
            bi ci i j) :=
  ⟨rfl, rfl, rfl⟩

/-- C5: constructing `Bottleneck(64, downsample=True)` raises a `TypeError`
(the two-argument `list.append` in the projection arm), so the downsample
forward can never run as written; with the projection shortcut the spec
intends (pooling, 1x1 projection, norm), the forward pass on an odd
`H=W=7` input zero-pads to `8x8` before the shortcut pooling and both
paths agree on the output shape `H=W=4`. -/
theorem c5_bottleneck_downsample_odd_input :
    Bottleneck.init 64 none 3 1 false true 0 = Except.error appendMsg
    ∧ Bottleneck.forwardShape
        ⟨true, bottleneckLayers 64 64 32 3 1 false true, some (projFixedDown 64 64)⟩
        (4, 64, 7, 7) = Except.ok (4, 64, 4, 4) :=
  ⟨by rfl, by rfl⟩

/-- C7: constructing a `ConvBlock` with the recognized activation selector
`tanh` does not succeed: the source builds `nn.Tanh(inplace=True)` and
`nn.Tanh` accepts no `inplace` argument, so construction raises a
`TypeError`. -/
theorem c7_tanh_construction_raises :
    ConvBlock.init 64 none 3 1 strBn strTanh false false = Except.error tanhMsg := by rfl

/-- C4 counterexample: at `T = 0` — a well-shaped 5-axis input with the
matching channel count — `SpatialGRU.forward` does not return a length-0
sequence; the recurrent loop body never runs and `torch.stack` on the empty
output list raises. -/
theorem c4_zero_timesteps_counterexample :
    SpatialGRU.forwardShape mW [1, 0, 1, 3, 3] none = Except.error stackMsg := by rfl

/-- C6 counterexample: `Bottleneck(4, out_channels=4, dilation=2)` has
`out_channels` equal to `in_channels` and requests no resampling, yet
construction raises (the `assert dilation == 1`), contradicting the claim
that every such configuration constructs successfully. -/
theorem c6_dilation_counterexample :
    Bottleneck.init 4 (some 4) 3 2 false false 0 = Except.error dilMsg := by rfl

/-- C10: when the update gate computed by the cell is 0 at every position
(as when a very negative `gru_bias_init` drives the backend sigmoid to 0),
the `SpatialGRU` step returns the carried state unchanged, for every input
slice. -/
theorem c10_zero_update_gate_identity {B Ci Ch H W : Nat} (sg : ℚ → ℚ)
    (m : SpatialGRUV B Ci Ch H W) (x : T4 B Ci H W) (state : T4 B Ch H W)
    (h : ∀ bi ci i j, updateGateV sg m x state bi ci i j = 0) :
    gruCell sg m x state = state := by
  funext bi ci i j
  have e : gruCell sg m x state bi ci i j =
      (1 - updateGateV sg m x state bi ci i j) * state bi ci i j +
        updateGateV sg m x state bi ci i j *
          m.conv_state_tilde.forward
            (catC x (fun b2 c2 i2 j2 =>
              (1 - resetGateV sg m x state b2 c2 i2 j2) * state b2 c2 i2 j2))
            bi ci i j := rfl
  rw [e, h bi ci i j]
  ring

/-- C10 witness: a concrete cell whose update gate is identically zero
leaves the concrete carried state `sW` unchanged. -/
theorem c10_witness :
    (∀ bi ci i j, updateGateV sigZero cellW xW sW bi ci i j = 0)
    ∧ gruCell sigZero cellW xW sW = sW :=
  ⟨fun _ _ _ _ => rfl,
   c10_zero_update_gate_identity sigZero cellW xW sW (fun _ _ _ _ => rfl)⟩

/-- C8: `SpatialGRU.forward` fails fatally at its start whenever the input
does not have exactly 5 axes (first assert) or its channel axis differs
from the configured `input_size` (second assert); when both preconditions
hold, the assert guard passes, i.e. this error path is not taken. -/
theorem c8_forward_preconditions (m : SpatialGRUS) (xshape : List Nat)
    (st : Option Shape4) :
    (xshape.length ≠ 5 → SpatialGRU.forwardShape m xshape st = Except.error axesMsg)
    ∧ (∀ b t c h w, xshape = [b, t, c, h, w] → c ≠ m.input_size →
        SpatialGRU.forwardShape m xshape st = Except.error featMsg)
    ∧ (∀ b t c h w, xshape = [b, t, c, h, w] → c = m.input_size →
        sgruSizeCheck m.input_size xshape = Except.ok (b, t, c, h, w)) := by
  refine ⟨?_, ?_, ?_⟩
  · intro hlen
    rcases xshape with _ | ⟨a1, _ | ⟨a2, _ | ⟨a3, _ | ⟨a4, _ | ⟨a5, _ | ⟨a6, rest⟩⟩⟩⟩⟩⟩ <;>
      first
      | (exact absurd rfl hlen)
      | (rw [SpatialGRU.forwardShape]
         simp [sgruSizeCheck, Bind.bind, Except.bind])
  · intro b t c h w hx hc
    subst hx
    rw [SpatialGRU.forwardShape]
    simp only [sgruSizeCheck, if_pos hc, Bind.bind, Except.bind]
  · intro b t c h w hx hc
    subst hx
    simp only [sgruSizeCheck, hc]
    rw [if_neg (by simp)]

/-- C8 witness: a 2-axis input errors with the axis message, a 5-axis input
with channel count 3 against `input_size = 1` errors with the size
message, and the well-shaped check passes. -/
theorem c8_witness :
    SpatialGRU.forwardShape mW [1, 2] none = Except.error axesMsg
    ∧ SpatialGRU.forwardShape mW [1, 1, 3, 2, 2] none = Except.error featMsg
    ∧ sgruSizeCheck mW.input_size [1, 1, 1, 2, 2] = Except.ok (1, 1, 1, 2, 2) :=
  ⟨(c8_forward_preconditions mW [1, 2] none).1 (by decide),
   (c8_forward_preconditions mW [1, 1, 3, 2, 2] none).2.1 1 1 3 2 2 rfl (by decide),
   (c8_forward_preconditions mW [1, 1, 1, 2, 2] none).2.2 1 1 1 2 2 rfl (by decide)⟩

/-- C6 (amended): every `Bottleneck` configuration that requires a
projection shortcut — effective `out_channels` different from
`in_channels`, or `upsample`, or `downsample` — raises at construction, so
no such `Bottleneck` can be instantiated; configurations with effective
`out_channels` equal to `in_channels`, no resampling, dilation 1 and a
dropout probability in `[0,1]` construct successfully with an identity
shortcut (`projection = None`). -/
theorem c6_projection_construction (ic : Nat) (oc : Option Nat) (k dil : Nat)
    (up down : Bool) (dr : ℚ) :
    (pyOr oc ic ≠ ic ∨ up = true ∨ down = true →
      ∃ e, Bottleneck.init ic oc k dil up down dr = Except.error e)
    ∧ (pyOr oc ic = ic → up = false → down = false → dil = 1 → 0 ≤ dr → dr ≤ 1 →
        Bottleneck.init ic oc k dil up down dr =
          Except.ok ⟨false, bottleneckLayers ic ic (ic / 2) k (k / 2) false false,
            none⟩) := by
  constructor
  · intro hproj
    rw [Bottleneck.init]
    split
    · exact ⟨_, rfl⟩
    · split
      · exact ⟨_, rfl⟩
      · split
        · exact ⟨_, rfl⟩
        · split
          · rename_i hcond
            rcases hproj with h | h | h
            · exact absurd hcond.1 h
            · simp [h] at hcond
            · simp [h] at hcond
          · exact ⟨_, rfl⟩
  · intro h1 h2 h3 h4 h5 h6
    subst h2
    subst h3
    subst h4
    rw [Bottleneck.init]
    rw [if_neg (by omega)]
    rw [if_neg (by simp)]
    rw [if_neg (by push_neg; exact ⟨h5, h6⟩)]
    rw [if_pos ⟨h1, rfl, rfl⟩]
    rw [h1]
    rw [show ((k - 1) * 1 + 1) / 2 = k / 2 by omega]

/-- C6 witness: `Bottleneck(4, upsample=True)` raises; `Bottleneck(4)` with
no resampling constructs with an identity shortcut. -/
theorem c6_witness :
    (∃ e, Bottleneck.init 4 none 3 1 true false 0 = Except.error e)
    ∧ Bottleneck.init 4 none 3 1 false false 0 =
        Except.ok ⟨false, bottleneckLayers 4 4 2 3 1 false false, none⟩ :=
  ⟨(c6_projection_construction 4 none 3 1 true false 0).1 (Or.inr (Or.inl rfl)),
   (c6_projection_construction 4 none 3 1 false false 0).2 rfl rfl rfl rfl
     (by norm_num) (by norm_num)⟩

/-- C9: an unknown normalization selector and an unknown activation
selector each make `ConvBlock` construction fail fatally with the
corresponding `ValueError`; a simultaneous upsample and downsample request
makes `Bottleneck` construction fail fatally; but the *recognized*
activation selector `tanh` also raises at construction (a `TypeError` from
`nn.Tanh(inplace=True)`), contradicting the claim that recognized
selectors never raise. -/
theorem c9_config_errors (ic : Nat) (oc : Option Nat) (k st2 : Nat) (bias : Bool)
    (nrm act : String) (ic2 : Nat) (oc2 : Option Nat) (k2 dil2 : Nat) (dr2 : ℚ) :
    (nrm ∉ ([strBn, strIn, strNoneSel] : List String) →
      ConvBlock.init ic oc k st2 nrm act bias false = Except.error (normErrMsg nrm))
    ∧ (act ∉ ([strRelu, strLrelu, strElu, strTanh, strNoneSel] : List String) →
      ConvBlock.init ic oc k st2 strBn act bias false = Except.error (actErrMsg act))
    ∧ (∃ e, Bottleneck.init ic2 oc2 k2 dil2 true true dr2 = Except.error e)
    ∧ ConvBlock.init ic oc k st2 strBn strTanh bias false = Except.error tanhMsg := by
  refine ⟨?_, ?_, ?_, by rfl⟩
  · intro hn
    simp only [List.mem_cons, List.not_mem_nil, or_false, not_or] at hn
    obtain ⟨h1, h2, h3⟩ := hn
    rw [ConvBlock.init, if_neg (by simp), if_neg h1, if_neg h2, if_neg h3]
    rfl
  · intro ha
    simp only [List.mem_cons, List.not_mem_nil, or_false, not_or] at ha
    obtain ⟨h1, h2, h3, h4, h5⟩ := ha
    rw [ConvBlock.init, if_neg (by simp), if_neg h1, if_neg h2, if_neg h3,
      if_neg h4, if_neg h5]
    rfl
  · by_cases hd : dil2 = 1
    · subst hd
      exact ⟨upDownMsg, by
        rw [Bottleneck.init, if_neg (by omega),
          if_pos (show (true && true) = true by rfl)]⟩
    · exact ⟨dilMsg, by rw [Bottleneck.init, if_pos hd]⟩

/-- C9 witness: concrete unknown selectors raise their `ValueError`s, a
simultaneous up+down request raises, and the recognized `tanh` selector
raises its `TypeError`. -/
theorem c9_witness :
    ConvBlock.init 1 none 3 1 strFoo strRelu false false = Except.error (normErrMsg strFoo)
    ∧ ConvBlock.init 1 none 3 1 strBn strQux false false = Except.error (actErrMsg strQux)
    ∧ (∃ e, Bottleneck.init 4 none 3 1 true true 0 = Except.error e)
    ∧ ConvBlock.init 1 none 3 1 strBn strTanh false false = Except.error tanhMsg :=
  ⟨(c9_config_errors 1 none 3 1 false strFoo strRelu 4 none 3 1 0).1 (by decide),
   (c9_config_errors 1 none 3 1 false strBn strQux 4 none 3 1 0).2.1 (by decide),
   (c9_config_errors 1 none 3 1 false strBn strQux 4 none 3 1 0).2.2.1,
   (c9_config_errors 1 none 3 1 false strBn strQux 4 none 3 1 0).2.2.2⟩

/-- C3: in `FuturePrediction`, GRU block `k` has input width `latent_dim`
when `k = 0` and `in_channels` otherwise; and the stage loop hands *every*
stage the same externally supplied current-state map `hs` as its GRU seed
(the recursive call keeps `hs`, never a stage output). -/
theorem c3_stage_widths_and_shared_seed (ic ld ng nr : Nat) (m : FuturePredictionS)
    (hinit : FuturePrediction.init ic ld ng nr = Except.ok m)
    (k : Nat) (g : SpatialGRUS) (hget : m.spatial_grus[k]? = some g)
    (g2 : SpatialGRUS) (rs : List BottleneckS)
    (rest : List (SpatialGRUS × List BottleneckS)) (x : List Nat) (hs : Shape4) :
    g.input_size = (if k = 0 then ld else ic)
    ∧ fpStages ((g2, rs) :: rest) x hs =
        (SpatialGRU.forwardShape g2 x (some hs)).bind (fun x2 =>
          match x2 with
          | [b, t, c, h, w] =>
              (foldRes rs (b * t, c, h, w)).bind (fun y =>
                (viewAs5 y b t c h w).bind (fun yv => fpStages rest yv hs))
          | _ => Except.error unpackMsg) := by
  constructor
  · rw [FuturePrediction.init] at hinit
    simp only [Bind.bind, Except.bind] at hinit
    cases hg : buildGrusFrom ic ld 0 ng with
    | error e => rw [hg] at hinit; simp at hinit
    | ok gs =>
        rw [hg] at hinit
        cases hr : buildResBlocks ic nr ng with
        | error e => rw [hr] at hinit; simp at hinit
        | ok rbs =>
            rw [hr] at hinit
            simp only [Except.ok.injEq] at hinit
            subst hinit
            have hgk := buildGrusFrom_get ic ld ng 0 k gs g hg hget
            simpa using hgk
  · rfl

/-- C3 witness: block 0 of `FuturePrediction(in_channels=2, latent_dim=3,
n_gru_blocks=1, n_res_layers=0)` has input width `latent_dim = 3`. -/
theorem c3_witness : gruW0.input_size = (if 0 = 0 then 3 else 2) :=
  (c3_stage_widths_and_shared_seed 2 3 1 0 fpW rfl 0 gruW0 rfl gruW0 [] [] []
    (1, 1, 1, 1)).1

/-- C4 (amended): for every well-shaped input `[B,T,C,H,W]` with `T >= 1`
(and positive spatial extents) whose channel axis matches the configured
`input_size`, a constructed `SpatialGRU` with no initial state returns a
sequence of time length exactly `T`; at value level the output list has
length `T`, its entry 0 is the cell applied to slice 0 and the all-zeros
initial state (the zero-initialisation of the carried state), and each
later entry is the cell applied to the next slice and the previous entry —
entry `t` is the hidden state after step `t`.  (At `T = 0` the source
instead raises from `torch.stack([])`.) -/
theorem c4_sequence_length_and_entries (isz hsz : Nat) (nrm act : String)
    (m : SpatialGRUS)
    (hinit : SpatialGRU.init isz hsz nrm act = Except.ok m) (hhsz : 1 ≤ hsz)
    (b t c h w : Nat) (hc : c = isz) (ht : 1 ≤ t) (hh : 1 ≤ h) (hw : 1 ≤ w)
    {B Ci Ch H W : Nat} (sg : ℚ → ℚ) (mv : SpatialGRUV B Ci Ch H W)
    (x : Nat → T4 B Ci H W) (T2 : Nat) :
    SpatialGRU.forwardShape m [b, t, c, h, w] none = Except.ok [b, t, hsz, h, w]
    ∧ (sgruForwardV sg mv T2 x none).length = T2
    ∧ (0 < T2 → (sgruForwardV sg mv T2 x none)[0]? = some (gruCell sg mv (x 0) zeroT))
    ∧ (∀ k v v2, (sgruForwardV sg mv T2 x none)[k]? = some v →
        (sgruForwardV sg mv T2 x none)[k + 1]? = some v2 →
        v2 = gruCell sg mv (x (k + 1)) v) := by
  refine ⟨?_, ?_, ?_, ?_⟩
  · rw [SpatialGRU.init] at hinit
    simp only [Bind.bind, Except.bind] at hinit
    cases hcb : ConvBlock.init (isz + hsz) (some hsz) 3 1 nrm act false false with
    | error e => rw [hcb] at hinit; simp at hinit
    | ok tilde =>
        rw [hcb] at hinit
        simp only [Except.ok.injEq] at hinit
        subst hinit
        subst hc
        cases t with
        | zero => omega
        | succ t1 =>
            have htl := ConvBlock.init_ok_forwardShape (c + hsz) hsz b h w nrm act
              false tilde hcb hhsz hh hw
            have hcell := cellShape_eval
              ⟨c, hsz, ⟨c + hsz, hsz, 3, 1, 1⟩, ⟨c + hsz, hsz, 3, 1, 1⟩, tilde⟩
              c hsz b h w rfl rfl htl hh hw
            have hloop := sgruLoopShape_const _ _ _ hcell (t1 + 1)
            rw [SpatialGRU.forwardShape]
            simp only [Bind.bind, Except.bind, sgruSizeCheck]
            rw [if_neg (by simp)]
            simp only [hloop, stackShape_replicate t1 (b, hsz, h, w)]
  · exact sgruFrom_length sg mv x T2 0 zeroT
  · intro hT
    exact sgruFrom_get_zero sg mv x T2 0 zeroT hT
  · intro k v v2 h1 h2
    have hstep := sgruFrom_step sg mv x T2 0 k zeroT v v2 h1 h2
    simpa using hstep

/-- C4 witness: a concrete constructed `SpatialGRU(1,1)` on a `[1,1,1,1,1]`
input with no initial state returns shape `[1,1,1,1,1]`, and a concrete
value-level run of one step has output length 1. -/
theorem c4_witness :
    SpatialGRU.forwardShape mW [1, 1, 1, 1, 1] none = Except.ok [1, 1, 1, 1, 1]
    ∧ (sgruForwardV sigZero cellW 1 (fun _ => xW) none).length = 1 :=
  ⟨(c4_sequence_length_and_entries 1 1 strBn strRelu mW rfl (by decide) 1 1 1 1 1 rfl
      (by decide) (by decide) (by decide) sigZero cellW (fun _ => xW) 1).1,
   (c4_sequence_length_and_entries 1 1 strBn strRelu mW rfl (by decide) 1 1 1 1 1 rfl
      (by decide) (by decide) (by decide) sigZero cellW (fun _ => xW) 1).2.1⟩

end BeverseLite
